import Mathlib

/-!
Verification of the P0S31D0N-AI orchestrator against its natural-language
specification.  The Python sources are shallowly embedded: dictionaries become
association lists over a value type `Val`, raised exceptions become `Except`
results, wall-clock times become integers, and float arithmetic on metrics is
carried out over `ℚ`.  Each embedded definition mirrors one function of the
repository and is named after it.
-/

namespace SAAM

/-- Python exceptions that the embedded code can raise. -/
inductive PyErr where
  | keyError (clave : String)
  | nameError (nombre : String)
  | attributeError (msg : String)
  | valueError (msg : String)
  | timeoutError (msg : String)
  | exception (msg : String)
  deriving DecidableEq, Repr

/-- Python values stored in the heterogeneous dictionaries of the source. -/
inductive Val where
  | vstr (s : String)
  | vnat (n : Nat)
  | vint (i : Int)
  | vbool (b : Bool)
  | vnone
  deriving DecidableEq, Repr

/-- First binding of a key in an association list (Python dict lookup). -/
def dlookup {α : Type} (l : List (String × α)) (k : String) : Option α :=
  match l with
  | [] => none
  | (k2, v) :: resto => if k2 = k then some v else dlookup resto k

/-- `k in d` for a Python dict. -/
def dmem {α : Type} (l : List (String × α)) (k : String) : Bool :=
  (dlookup l k).isSome

/-- `d[k] = v` for a Python dict: update in place if the key is present,
append otherwise (insertion order is preserved, keys stay unique). -/
def dset {α : Type} (l : List (String × α)) (k : String) (v : α) :
    List (String × α) :=
  if dmem l k then l.map (fun p => if p.1 = k then (k, v) else p)
  else l ++ [(k, v)]

/-- `del d[k]` once the key is known present: remove the binding. -/
def ddel {α : Type} (l : List (String × α)) (k : String) : List (String × α) :=
  l.filter (fun p => p.1 ≠ k)

/-- `del d[k]` for a Python dict: raises `KeyError` on a missing key. -/
def delDict {α : Type} (l : List (String × α)) (k : String) :
    Except PyErr (List (String × α)) :=
  if dmem l k then .ok (ddel l k) else .error (.keyError k)

/-- Keys of a dict, in insertion order. -/
def dkeys {α : Type} (l : List (String × α)) : List String :=
  l.map Prod.fst

/-- The key `k` is bound in the dict `l`. -/
def tiene {α : Type} (l : List (String × α)) (k : String) : Prop :=
  k ∈ dkeys l

namespace MemoriaTrabajo

/-- The three private dictionaries of `MemoriaTrabajo` (src/memoria/trabajo.py)
together with the configured `timeout`.  Timestamps are integers standing for
`time.time()` readings. -/
structure Estado (α : Type) where
  almacen : List (String × α)
  timestampAcceso : List (String × Int)
  timestampCreacion : List (String × Int)
  timeout : Int
  deriving DecidableEq, Repr

/-- `MemoriaTrabajo.__init__`: three empty dicts and the configured timeout. -/
def inicial (α : Type) (timeout : Int) : Estado α :=
  { almacen := [], timestampAcceso := [], timestampCreacion := [],
    timeout := timeout }

/-- `MemoriaTrabajo.guardar`: store the value and stamp both timestamp dicts
with the current time.  (The optional per-key `threading.Timer` expiration
only schedules a later call of `eliminar`, which is a separate operation of
the state machine.) -/
def guardar {α : Type} (s : Estado α) (clave : String) (valor : α)
    (ahora : Int) : Estado α :=
  { s with
    almacen := dset s.almacen clave valor,
    timestampAcceso := dset s.timestampAcceso clave ahora,
    timestampCreacion := dset s.timestampCreacion clave ahora }

/-- `MemoriaTrabajo.obtener`: if the key is in the store, refresh its access
timestamp and return the value; otherwise return the default (modelled as
`none`).  No expiry check is performed here. -/
def obtener {α : Type} (s : Estado α) (clave : String) (ahora : Int) :
    Option α × Estado α :=
  if dmem s.almacen clave then
    (dlookup s.almacen clave,
      { s with timestampAcceso := dset s.timestampAcceso clave ahora })
  else (none, s)

/-- The three `del` statements that `eliminar` and `_limpiar_expirados` both
run: delete the key from the three dicts, each `del` raising `KeyError` on a
missing key. -/
def eliminarTres {α : Type} (s : Estado α) (clave : String) :
    Except PyErr (Estado α) :=
  match delDict s.almacen clave with
  | .error e => .error e
  | .ok a =>
    match delDict s.timestampAcceso clave with
    | .error e => .error e
    | .ok acc =>
      match delDict s.timestampCreacion clave with
      | .error e => .error e
      | .ok cre =>
        let s2 : Estado α :=
          { s with
            almacen := a,
            timestampAcceso := acc,
            timestampCreacion := cre }
        .ok s2

/-- `MemoriaTrabajo.eliminar`: delete the key from the three dicts when
present (returning `true`), else do nothing (returning `false`). -/
def eliminar {α : Type} (s : Estado α) (clave : String) :
    Except PyErr (Bool × Estado α) :=
  if dmem s.almacen clave then
    match eliminarTres s clave with
    | .error e => .error e
    | .ok s2 => .ok (true, s2)
  else .ok (false, s)

/-- The deletion loop of `MemoriaTrabajo._limpiar_expirados`: delete each
listed key from the three dicts. -/
def borrarClaves {α : Type} (claves : List String) (s : Estado α) :
    Except PyErr (Estado α) :=
  match claves with
  | [] => .ok s
  | clave :: resto =>
    match eliminarTres s clave with
    | .error e => .error e
    | .ok s2 => borrarClaves resto s2

/-- `MemoriaTrabajo._limpiar_expirados`: collect the keys whose *last access*
timestamp is older than `timeout` and delete them from the three dicts. -/
def limpiarExpirados {α : Type} (s : Estado α) (ahora : Int) :
    Except PyErr (Estado α) :=
  let claves := (s.timestampAcceso.filter
    (fun p => ahora - p.2 > s.timeout)).map Prod.fst
  borrarClaves claves s

/-- `MemoriaTrabajo.limpiar_todo`: clear the three dicts. -/
def limpiarTodo {α : Type} (s : Estado α) : Estado α :=
  { s with almacen := [], timestampAcceso := [], timestampCreacion := [] }

/-- One operation against the working store, tagged with the time at which it
runs (the background sweep is the `limpiarExpirados` operation). -/
inductive Op (α : Type) where
  | guardar (clave : String) (valor : α) (ahora : Int)
  | obtener (clave : String) (ahora : Int)
  | eliminar (clave : String)
  | limpiarExpirados (ahora : Int)
  | limpiarTodo
  deriving Repr

/-- Run one operation (dropping returned values). -/
def paso {α : Type} (s : Estado α) : Op α → Except PyErr (Estado α)
  | .guardar clave valor ahora => .ok (guardar s clave valor ahora)
  | .obtener clave ahora => .ok (obtener s clave ahora).2
  | .eliminar clave =>
    match eliminar s clave with
    | .error e => .error e
    | .ok r => .ok r.2
  | .limpiarExpirados ahora => limpiarExpirados s ahora
  | .limpiarTodo => .ok (limpiarTodo s)

/-- Run a sequence of operations. -/
def correr {α : Type} (ops : List (Op α)) (s : Estado α) :
    Except PyErr (Estado α) :=
  match ops with
  | [] => .ok s
  | op :: resto =>
    match paso s op with
    | .error e => .error e
    | .ok s2 => correr resto s2

/-- The state after deleting a key from the three dicts. -/
def quitar {α : Type} (s : Estado α) (clave : String) : Estado α :=
  { s with
    almacen := ddel s.almacen clave,
    timestampAcceso := ddel s.timestampAcceso clave,
    timestampCreacion := ddel s.timestampCreacion clave }

/-- The three internal dicts bind exactly the same key set. -/
def mismasClaves {α : Type} (s : Estado α) : Prop :=
  ∀ k, (tiene s.almacen k ↔ tiene s.timestampAcceso k) ∧
    (tiene s.almacen k ↔ tiene s.timestampCreacion k)

/-- Inductive invariant of the working store: synchronized key sets and
duplicate-free keys. -/
def invariante {α : Type} (s : Estado α) : Prop :=
  mismasClaves s ∧ (dkeys s.almacen).Nodup ∧
    (dkeys s.timestampAcceso).Nodup ∧ (dkeys s.timestampCreacion).Nodup

end MemoriaTrabajo

namespace GestorMetricas

/-- The smoothing factor `self.config.get('alpha_metricas', 0.1)` read by
`_calcular_nuevas_metricas` (src/memoria/metricas.py). -/
def alphaDe (config : List (String × ℚ)) : ℚ :=
  (dlookup config "alpha_metricas").getD (1/10)

/-- The EWMA success-rate update `alpha * exito_actual +
(1 - alpha) * tasa_exito_anterior` of `_calcular_nuevas_metricas`, with the
source's prior default 0.5. -/
def nuevaTasa (config m : List (String × ℚ)) (resultadoExito : Bool) : ℚ :=
  alphaDe config * (if resultadoExito then 1 else 0) +
    (1 - alphaDe config) * (dlookup m "tasa_exito").getD (1/2)

/-- `GestorMetricas._calcular_nuevas_metricas` over exact rationals: set the
EWMA-updated `tasa_exito`, then (only when the execution reported a positive
duration) set `tiempo_promedio`, seeding it with the raw duration when no
prior average exists. -/
def calcularNuevasMetricas (config metricasActuales : List (String × ℚ))
    (resultadoExito : Bool) (duracion : ℚ) : List (String × ℚ) :=
  if 0 < duracion then
    if (dlookup metricasActuales "tiempo_promedio").getD 0 = 0 then
      dset (dset metricasActuales "tasa_exito"
        (nuevaTasa config metricasActuales resultadoExito))
        "tiempo_promedio" duracion
    else
      dset (dset metricasActuales "tasa_exito"
        (nuevaTasa config metricasActuales resultadoExito))
        "tiempo_promedio"
        (alphaDe config * duracion + (1 - alphaDe config) *
          (dlookup metricasActuales "tiempo_promedio").getD 0)
  else
    dset metricasActuales "tasa_exito"
      (nuevaTasa config metricasActuales resultadoExito)

/-- Metrics after `k` consecutive successful executions, each one applying
`_calcular_nuevas_metricas` with `exito = true`. -/
def metricasTrasExitos (config m0 : List (String × ℚ)) (duracion : ℚ) :
    Nat → List (String × ℚ)
  | 0 => m0
  | k + 1 =>
    calcularNuevasMetricas config (metricasTrasExitos config m0 duracion k)
      true duracion

/-- The stored success rate, with the default 0.5 used by the source. -/
def tasaExito (m : List (String × ℚ)) : ℚ :=
  (dlookup m "tasa_exito").getD (1/2)

end GestorMetricas

/-- `type(error).__name__` for the embedded exceptions. -/
def nombreTipo : PyErr → String
  | .keyError _ => "KeyError"
  | .nameError _ => "NameError"
  | .attributeError _ => "AttributeError"
  | .valueError _ => "ValueError"
  | .timeoutError _ => "TimeoutError"
  | .exception _ => "Exception"

/-- `str(error)` for the embedded exceptions. -/
def mensajeDe : PyErr → String
  | .keyError m => m
  | .nameError m => "name " ++ m ++ " is not defined"
  | .attributeError m => m
  | .valueError m => m
  | .timeoutError m => m
  | .exception m => m

/-- Python truthiness of an embedded value (`if resultado.get('exito', ...)`:
non-empty strings, non-zero numbers and `True` are truthy). -/
def esVerdadero : Val → Bool
  | .vstr s => s ≠ ""
  | .vnat n => n ≠ 0
  | .vint i => i ≠ 0
  | .vbool b => b
  | .vnone => false

/-- `str(v)` for the embedded values. -/
def valAStr : Val → String
  | .vstr s => s
  | .vnat n => toString n
  | .vint i => toString i
  | .vbool b => if b then "True" else "False"
  | .vnone => "None"

/-- ASCII lower-casing of one character (`str.lower()` on the ASCII error
messages used by the classifier). -/
def minuscula (c : Char) : Char :=
  if 65 ≤ c.toNat ∧ c.toNat ≤ 90 then Char.ofNat (c.toNat + 32) else c

/-- `str.lower()` over the embedded strings. -/
def minusculas (s : String) : String :=
  ⟨s.data.map minuscula⟩

/-- The needle occurs somewhere in the haystack (`re.search` with a literal
pattern). -/
def esSubcadena (aguja pajar : List Char) : Bool :=
  match pajar with
  | [] => aguja.isEmpty
  | _ :: resto => aguja.isPrefixOf pajar || esSubcadena aguja resto

/-- `re.search(patron, mensaje)` for the alternation-of-literals patterns of
`_cargar_patrones_error`: some alternative occurs as a substring. -/
def coincidePatron (alternativas : List String) (mensaje : String) : Bool :=
  alternativas.any (fun a => esSubcadena a.data mensaje.data)

namespace GestorErrores

/-- The classification record built by `GestorErrores.clasificar_error`
(src/met/ejecucion/gestion_errores.py). -/
structure Clasificacion where
  tipo : String
  categoria : String
  recuperable : Bool
  accionRecomendada : String
  confianza : ℚ
  deriving DecidableEq, Repr

/-- `GestorErrores._cargar_patrones_error`: the pattern table, in insertion
order (each regex is an alternation of literal substrings). -/
def patronesError : List (List String × Clasificacion) :=
  [(["connection refused", "cannot connect"],
    ⟨"conexion_rechazada", "infraestructura", true,
      "reintentar_con_backoff", 85/100⟩),
   (["timeout", "timed out"],
    ⟨"timeout", "rendimiento", true, "reintentar_con_backoff", 9/10⟩),
   (["rate limit", "too many requests"],
    ⟨"rate_limiting", "recursos", true,
      "reintentar_con_backoff_exponencial", 8/10⟩),
   (["authentication", "unauthorized", "invalid token"],
    ⟨"autenticacion", "seguridad", false, "escalar_a_mcp", 95/100⟩),
   (["not found", "404", "invalid endpoint"],
    ⟨"recurso_no_encontrado", "configuracion", false, "escalar_a_mcp",
      7/10⟩)]

/-- The pattern loop of `clasificar_error`: first matching pattern wins
(`break`). -/
def buscarPatron (mensaje : String) :
    List (List String × Clasificacion) → Option Clasificacion
  | [] => none
  | (alternativas, info) :: resto =>
    if coincidePatron alternativas mensaje then some info
    else buscarPatron mensaje resto

/-- `GestorErrores.clasificar_error`: classify by exception type name, then
by message patterns (lower-cased message).  When a pattern matches, the code
copies the whole pattern record and then takes `max` of the confidence with
itself (`update` already wrote the pattern's confidence), so the pattern
record is returned unchanged. -/
def clasificarError (tipoError mensaje : String) : Clasificacion :=
  let mensajeError := minusculas mensaje
  let base : Clasificacion :=
    ⟨"desconocido", "no_clasificado", false, "escalar_a_mcp", 0⟩
  let porTipo : Clasificacion :=
    if tipoError = "TimeoutError" ∨ tipoError = "asyncio.TimeoutError" then
      ⟨"timeout", "rendimiento", true, "reintentar_con_backoff", 9/10⟩
    else if tipoError = "ConnectionError" ∨ tipoError = "NetworkError" then
      ⟨"conexion", "infraestructura", true, "reintentar_inmediato", 8/10⟩
    else base
  match buscarPatron mensajeError patronesError with
  | some info => info
  | none => porTipo

/-- The retry-strategy table of
`GestorErrores.obtener_estrategia_reintento`. -/
structure Estrategia where
  delay : Nat
  maxReintentos : Nat
  backoff : String
  base : Option Nat
  factor : Option Nat
  deriving DecidableEq, Repr

/-- `GestorErrores.obtener_estrategia_reintento`: map the recommended action
to a strategy, with the source's fallback strategy. -/
def obtenerEstrategiaReintento (clasificacion : Clasificacion) : Estrategia :=
  if clasificacion.accionRecomendada = "reintentar_inmediato" then
    ⟨1, 3, "ninguno", none, none⟩
  else if clasificacion.accionRecomendada = "reintentar_con_backoff" then
    ⟨2, 5, "lineal", none, some 2⟩
  else if clasificacion.accionRecomendada =
      "reintentar_con_backoff_exponencial" then
    ⟨1, 7, "exponencial", some 2, none⟩
  else
    ⟨5, 3, "lineal", none, none⟩

end GestorErrores

namespace MecanismoReintentos

/-- The `a, b = b, a + b` loop of `MecanismoReintentos._fibonacci`
(src/met/ejecucion/mecanismo_reintentos.py). -/
def fibonacciAux : Nat → Nat × Nat
  | 0 => (0, 1)
  | n + 1 => ((fibonacciAux n).2, (fibonacciAux n).1 + (fibonacciAux n).2)

/-- `MecanismoReintentos._fibonacci`. -/
def fibonacciPy (n : Nat) : Nat :=
  (fibonacciAux n).1

/-- `MecanismoReintentos._calcular_delay`: delay for the next retry as a
function of the strategy and the current retry count. -/
def calcularDelay (reintentoActual : Nat)
    (estrategia : GestorErrores.Estrategia) : Nat :=
  if estrategia.backoff = "ninguno" then estrategia.delay
  else if estrategia.backoff = "lineal" then
    estrategia.delay * reintentoActual
  else if estrategia.backoff = "exponencial" then
    estrategia.delay * (estrategia.base.getD 2) ^ reintentoActual
  else if estrategia.backoff = "fibonacci" then
    estrategia.delay * fibonacciPy reintentoActual
  else estrategia.delay

/-- The retry loop of `MecanismoReintentos.ejecutar_con_reintentos` with its
two handlers `_manejar_fallo` and `_manejar_excepcion`; each `asyncio.sleep`
is recorded in the returned delay trace.  `funcion` gives the outcome of the
n-th call (a raised message or a returned result dict).  The fuel argument
bounds the loop; `max_reintentos + 1` iterations always suffice because the
retry counter grows on every non-returning iteration. -/
def ejecutarConReintentosAux
    (funcion : Nat → Except String (List (String × Val)))
    (estrategia : GestorErrores.Estrategia) :
    Nat → Nat → Nat → List Nat →
      Except PyErr (List (String × Val)) × List Nat
  | 0, _, _, delays => (.error (.exception "sin combustible"), delays)
  | fuel + 1, reintentoActual, intento, delays =>
    if reintentoActual < estrategia.maxReintentos then
      match funcion intento with
      | .ok resultado =>
        if esVerdadero ((dlookup resultado "exito").getD (.vbool false)) then
          (.ok resultado, delays)
        else
          if reintentoActual + 1 ≥ estrategia.maxReintentos then
            ejecutarConReintentosAux funcion estrategia fuel
              (reintentoActual + 1) (intento + 1) delays
          else
            ejecutarConReintentosAux funcion estrategia fuel
              (reintentoActual + 1) (intento + 1)
              (delays ++ [calcularDelay (reintentoActual + 1) estrategia])
      | .error e =>
        if reintentoActual + 1 ≥ estrategia.maxReintentos then
          (.error (.exception e), delays)
        else
          ejecutarConReintentosAux funcion estrategia fuel
            (reintentoActual + 1) (intento + 1)
            (delays ++ [calcularDelay (reintentoActual + 1) estrategia])
    else
      (.error (.exception ("Fallo despues de " ++
        toString reintentoActual ++ " reintentos")), delays)

/-- `MecanismoReintentos.ejecutar_con_reintentos`, starting at retry 0 with
an empty delay trace. -/
def ejecutarConReintentos
    (funcion : Nat → Except String (List (String × Val)))
    (estrategia : GestorErrores.Estrategia) :
    Except PyErr (List (String × Val)) × List Nat :=
  ejecutarConReintentosAux funcion estrategia
    (estrategia.maxReintentos + 1) 0 0 []

end MecanismoReintentos

namespace MotorEjecucion

/-- Modelled from the spec: `MotorEjecucion._es_error_recuperable` is called
by `_ejecutar_con_reintentos` (src/met/ejecucion/motor_ejecucion.py) but its
definition is not under src; per the spec's error classification (§4.3) an
error is recoverable exactly when the classification pattern table marks it
recoverable. -/
def esErrorRecuperable (error : String) : Bool :=
  (GestorErrores.clasificarError "Exception" error).recuperable

/-- `MotorEjecucion._ejecutar_simple`: run the tool and wrap the outcome or
the raised exception into a result dict; it never raises itself.
`herramienta` gives the outcome of the n-th call. -/
def ejecutarSimple (herramienta : Nat → Except String Val) (intento : Nat) :
    List (String × Val) :=
  match herramienta intento with
  | .ok resultado =>
    [("exito", .vbool true), ("resultado", resultado), ("error", Val.vnone)]
  | .error e =>
    [("exito", .vbool false), ("resultado", Val.vnone), ("error", .vstr e)]

/-- The while loop of `MotorEjecucion._ejecutar_con_reintentos`: run the
task; on a truthy `exito` return the result dict unchanged; on a recoverable
failure increment the retry counter and loop (`_manejar_reintento`, also
absent from src, only logs and sleeps per the spec, so it leaves the result
untouched); on an unrecoverable failure break, which reaches the final
`raise`.  The fuel argument bounds the loop; `max_reintentos + 2` iterations
always suffice because the counter grows on every non-returning pass. -/
def conReintentosAux (herramienta : Nat → Except String Val)
    (maxReintentos : Nat) :
    Nat → Nat → Nat → Except PyErr (List (String × Val))
  | 0, _, _ => .error (.exception "sin combustible")
  | fuel + 1, reintentoActual, intento =>
    if reintentoActual ≤ maxReintentos then
      if esVerdadero ((dlookup (ejecutarSimple herramienta intento)
          "exito").getD Val.vnone) then
        .ok (ejecutarSimple herramienta intento)
      else if esErrorRecuperable (valAStr
          ((dlookup (ejecutarSimple herramienta intento)
            "error").getD Val.vnone)) then
        conReintentosAux herramienta maxReintentos fuel
          (reintentoActual + 1) (intento + 1)
      else
        .error (.exception ("Fallo despues de " ++
          toString reintentoActual ++ " intentos"))
    else
      .error (.exception ("Fallo despues de " ++
        toString reintentoActual ++ " intentos"))

/-- `MotorEjecucion._ejecutar_con_reintentos`, starting at retry 0. -/
def ejecutarConReintentosMotor (herramienta : Nat → Except String Val)
    (maxReintentos : Nat) : Except PyErr (List (String × Val)) :=
  conReintentosAux herramienta maxReintentos (maxReintentos + 2) 0 0

end MotorEjecucion

namespace SHA256

/-- Truncation to a 32-bit word. -/
def trunca32 (x : Nat) : Nat := x % 2 ^ 32

/-- Right rotation of a 32-bit word by `n` bits. -/
def rotr (n x : Nat) : Nat :=
  trunca32 (x / 2 ^ n + x % 2 ^ n * 2 ^ (32 - n))

/-- Bitwise complement of a 32-bit word. -/
def compl32 (x : Nat) : Nat := Nat.xor x (2 ^ 32 - 1)

/-- FIPS 180-4 σ0. -/
def sigma0 (x : Nat) : Nat :=
  Nat.xor (Nat.xor (rotr 7 x) (rotr 18 x)) (x / 2 ^ 3)

/-- FIPS 180-4 σ1. -/
def sigma1 (x : Nat) : Nat :=
  Nat.xor (Nat.xor (rotr 17 x) (rotr 19 x)) (x / 2 ^ 10)

/-- FIPS 180-4 Σ0. -/
def gsigma0 (x : Nat) : Nat :=
  Nat.xor (Nat.xor (rotr 2 x) (rotr 13 x)) (rotr 22 x)

/-- FIPS 180-4 Σ1. -/
def gsigma1 (x : Nat) : Nat :=
  Nat.xor (Nat.xor (rotr 6 x) (rotr 11 x)) (rotr 25 x)

/-- FIPS 180-4 Ch. -/
def eleccion (x y z : Nat) : Nat :=
  Nat.xor (Nat.land x y) (Nat.land (compl32 x) z)

/-- FIPS 180-4 Maj. -/
def mayoria (x y z : Nat) : Nat :=
  Nat.xor (Nat.xor (Nat.land x y) (Nat.land x z)) (Nat.land y z)

/-- The 64 round constants. -/
def kConstantes : List Nat :=
  [1116352408, 1899447441, 3049323471,
   3921009573, 961987163, 1508970993,
   2453635748, 2870763221, 3624381080,
   310598401, 607225278, 1426881987,
   1925078388, 2162078206, 2614888103,
   3248222580, 3835390401, 4022224774,
   264347078, 604807628, 770255983,
   1249150122, 1555081692, 1996064986,
   2554220882, 2821834349, 2952996808,
   3210313671, 3336571891, 3584528711,
   113926993, 338241895, 666307205,
   773529912, 1294757372, 1396182291,
   1695183700, 1986661051, 2177026350,
   2456956037, 2730485921, 2820302411,
   3259730800, 3345764771, 3516065817,
   3600352804, 4094571909, 275423344,
   430227734, 506948616, 659060556,
   883997877, 958139571, 1322822218,
   1537002063, 1747873779, 1955562222,
   2024104815, 2227730452, 2361852424,
   2428436474, 2756734187, 3204031479,
   3329325298]

/-- The eight working variables of the compression function. -/
structure Hash where
  a : Nat
  b : Nat
  c : Nat
  d : Nat
  e : Nat
  f : Nat
  g : Nat
  h : Nat
  deriving DecidableEq, Repr

/-- The initial hash value. -/
def hashInicial : Hash :=
  ⟨1779033703, 3144134277, 1013904242, 2773480762,
   1359893119, 2600822924, 528734635, 1541459225⟩

/-- Extend the 16 block words by `fuel` scheduled words. -/
def extiende (fuel : Nat) (ws : List Nat) : List Nat :=
  match fuel with
  | 0 => ws
  | f + 1 =>
    extiende f (ws ++ [trunca32 (sigma1 (ws.getD (ws.length - 2) 0) +
      ws.getD (ws.length - 7) 0 + sigma0 (ws.getD (ws.length - 15) 0) +
      ws.getD (ws.length - 16) 0)])

/-- The 64-entry message schedule of one block. -/
def programa (bloque : List Nat) : List Nat := extiende 48 bloque

/-- One compression round. -/
def ronda (st : Hash) (kw : Nat × Nat) : Hash :=
  ⟨trunca32 (trunca32 (st.h + gsigma1 st.e + eleccion st.e st.f st.g +
      kw.1 + kw.2) + trunca32 (gsigma0 st.a + mayoria st.a st.b st.c)),
   st.a, st.b, st.c,
   trunca32 (st.d + trunca32 (st.h + gsigma1 st.e + eleccion st.e st.f st.g +
      kw.1 + kw.2)),
   st.e, st.f, st.g⟩

/-- Compress one 16-word block into the running hash. -/
def comprime (st : Hash) (bloque : List Nat) : Hash :=
  ((kConstantes.zip (programa bloque)).foldl ronda st) |> fun fin =>
    ⟨trunca32 (st.a + fin.a), trunca32 (st.b + fin.b),
     trunca32 (st.c + fin.c), trunca32 (st.d + fin.d),
     trunca32 (st.e + fin.e), trunca32 (st.f + fin.f),
     trunca32 (st.g + fin.g), trunca32 (st.h + fin.h)⟩

/-- Big-endian 8-byte encoding of the bit length. -/
def longitudBE (n : Nat) : List Nat :=
  [n / 2 ^ 56 % 256, n / 2 ^ 48 % 256, n / 2 ^ 40 % 256, n / 2 ^ 32 % 256,
   n / 2 ^ 24 % 256, n / 2 ^ 16 % 256, n / 2 ^ 8 % 256, n % 256]

/-- FIPS 180-4 padding: 0x80, zeros to 56 mod 64, then the bit length. -/
def rellena (mensaje : List Nat) : List Nat :=
  mensaje ++ [128] ++ List.replicate ((119 - mensaje.length % 64) % 64) 0 ++
    longitudBE (8 * mensaje.length)

/-- Group padded bytes into big-endian 32-bit words. -/
def aPalabras : List Nat → List Nat
  | b0 :: b1 :: b2 :: b3 :: resto =>
    (b0 * 2 ^ 24 + b1 * 2 ^ 16 + b2 * 2 ^ 8 + b3) :: aPalabras resto
  | _ => []

/-- Split a word list into 16-word blocks (fuel-bounded). -/
def bloquesDe : Nat → List Nat → List (List Nat)
  | 0, _ => []
  | _, [] => []
  | f + 1, ws => ws.take 16 :: bloquesDe f (ws.drop 16)

/-- SHA-256 of a byte list. -/
def sha256 (mensaje : List Nat) : Hash :=
  (bloquesDe (rellena mensaje).length (aPalabras (rellena mensaje))).foldl
    comprime hashInicial

/-- One lower-case hex digit. -/
def digitoHex (n : Nat) : Char :=
  if n < 10 then Char.ofNat (48 + n) else Char.ofNat (87 + n)

/-- Fixed-width (8 hex digits) rendering of a 32-bit word. -/
def hex8 (w : Nat) : List Char :=
  [digitoHex (w / 16 ^ 7 % 16), digitoHex (w / 16 ^ 6 % 16),
   digitoHex (w / 16 ^ 5 % 16), digitoHex (w / 16 ^ 4 % 16),
   digitoHex (w / 16 ^ 3 % 16), digitoHex (w / 16 ^ 2 % 16),
   digitoHex (w / 16 % 16), digitoHex (w % 16)]

/-- `hashlib.sha256(...).hexdigest()`. -/
def hexdigest (mensaje : List Nat) : String :=
  ⟨hex8 (sha256 mensaje).a ++ hex8 (sha256 mensaje).b ++
    hex8 (sha256 mensaje).c ++ hex8 (sha256 mensaje).d ++
    hex8 (sha256 mensaje).e ++ hex8 (sha256 mensaje).f ++
    hex8 (sha256 mensaje).g ++ hex8 (sha256 mensaje).h⟩

end SHA256

/-- `str.encode()` of the canonical content; the inputs hashed here are
ASCII, where UTF-8 bytes coincide with the code points. -/
def bytesDe (s : String) : List Nat :=
  s.data.map Char.toNat

namespace GestorMemoriaEpisodica

/-- The episode dict passed to `guardar_episodio`
(src/memoria/episodica/gestor_episodica.py); `Option` fields model key
presence, datetimes are carried as their string rendering. -/
structure Episodio where
  id : Option String
  objetivo : Option String
  sessionId : Option String
  estadoGlobal : Option String
  duracionTotalSegundos : Option ℚ
  timestampInicio : Option String
  timestampFin : Option String
  versionSistema : Option String
  checksumIntegridad : Option String
  deriving DecidableEq, Repr

/-- The stored `EpisodioDB` row; `timestamp_inicio` and `timestamp_fin` are
NOT NULL columns enforced at commit time. -/
structure EpisodioDB where
  id : String
  objetivo : String
  sessionId : String
  estadoGlobal : String
  duracionTotal : ℚ
  timestampInicio : Option String
  timestampFin : Option String
  versionSistema : String
  checksumIntegridad : String
  deriving DecidableEq, Repr

/-- `GestorMemoriaEpisodica.guardar_episodio`: build the row from the dict
with the source's defaults (a generated id when absent, `''` for a missing
checksum, 'desconocido' for a missing state) and commit it; the commit
enforces the NOT NULL timestamp columns (the constraint check is the only
way the write can fail, and it is hoisted before the row literal here).  No
checksum is computed or verified anywhere in this function. -/
def guardarEpisodio (episodio : Episodio) (idGenerado : String) :
    Except PyErr EpisodioDB :=
  if episodio.timestampInicio.isSome ∧ episodio.timestampFin.isSome then
    .ok { id := episodio.id.getD idGenerado,
          objetivo := episodio.objetivo.getD "",
          sessionId := episodio.sessionId.getD "",
          estadoGlobal := episodio.estadoGlobal.getD "desconocido",
          duracionTotal := episodio.duracionTotalSegundos.getD 0,
          timestampInicio := episodio.timestampInicio,
          timestampFin := episodio.timestampFin,
          versionSistema := episodio.versionSistema.getD "",
          checksumIntegridad := episodio.checksumIntegridad.getD "" }
  else .error (.exception "IntegrityError: NOT NULL constraint failed")

/-- An episode dict with all canonical fields but no checksum key. -/
def episodioSinChecksum : Episodio :=
  ⟨none, some "objetivo de prueba", some "s1", some "exito", some 10,
    some "2024-01-01 00:00:00", some "2024-01-01 00:00:10", some "1.0.0",
    none⟩

end GestorMemoriaEpisodica

namespace ValidadorIntegridad

/-- The f-string of `ValidadorIntegridad._calcular_checksum`
(src/memoria/episodica/integridad.py): canonical content is the
concatenation of objetivo, timestamp_inicio, timestamp_fin and
version_sistema. -/
def contenidoCanonico (objetivo inicio fin version : String) : String :=
  objetivo ++ inicio ++ fin ++ version

/-- `ValidadorIntegridad._calcular_checksum`. -/
def calcularChecksum (objetivo inicio fin version : String) : String :=
  SHA256.hexdigest (bytesDe (contenidoCanonico objetivo inicio fin version))

end ValidadorIntegridad

namespace ModuloEjecucionTareas

/-- A task dict as consumed by `ModuloEjecucionTareas.ejecutar_tarea`
(src/sistema/met.py); `Option` fields model dict-key presence. -/
structure Tarea where
  id : Option String
  tipo : Option String
  herramienta : Option String
  parametros : Option (List (String × Val))
  maxReintentos : Option Nat
  deriving DecidableEq, Repr

/-- `_validar_tarea`: the keys tipo/herramienta/parametros must be present,
and a web search additionally needs a `query` parameter. -/
def validarTarea (tarea : Tarea) : Except PyErr Tarea :=
  if tarea.tipo.isSome ∧ tarea.herramienta.isSome ∧
      tarea.parametros.isSome then
    if tarea.tipo = some "busqueda_web" ∧
        dmem (tarea.parametros.getD []) "query" = false then
      .error (.valueError "Busqueda web requiere parametro query")
    else .ok tarea
  else .error (.valueError "Tarea invalida: faltan campos requeridos")

/-- `_seleccionar_herramienta`: look the tool up in the registry (a falsy
result raises `ValueError`).  The registry maps a tool name to the outcome
its execution will produce under `_ejecutar_con_timeout` (a value, or a
raised timeout or tool exception) — the tool itself is an external
collaborator. -/
def seleccionarHerramienta (herramientas : String → Option (Except PyErr Val))
    (tarea : Tarea) : Except PyErr (Except PyErr Val) :=
  match herramientas (tarea.herramienta.getD "") with
  | some h => .ok h
  | none => .error (.valueError "Herramienta no disponible")

/-- `_procesar_resultado` for the generic branch wraps the raw value as
`{'resultado': resultado}`.  Modelled from the spec: the type-specific
post-processors `_procesar_resultado_busqueda` and
`_procesar_resultado_texto` are referenced but not defined under src; per the
spec they normalize the result, so they are modelled as the same wrapping. -/
def procesarResultado (resultado : Val) (_tarea : Tarea) :
    List (String × Val) :=
  [("resultado", resultado)]

/-- `_manejar_error`: with retries left, the backoff line
`asyncio.sleep(2 ** reintento_actual + random.uniform(0, 1))` evaluates
`random.uniform` first, and src/sistema/met.py never imports `random`, so
that branch raises `NameError` and the recursive `ejecutar_tarea` call below
it is dead code; with `contexto = None` the initial `contexto.get` raises
`AttributeError`.  With retries exhausted it returns the error record. -/
def manejarError (error : PyErr) (tarea : Tarea)
    (contexto : Option (List (String × Val))) (configMaxReintentos : Nat) :
    Except PyErr (List (String × Val)) :=
  match contexto with
  | none => .error (.attributeError
      "NoneType object has no attribute get")
  | some ctx =>
    if (match dlookup ctx "reintento_actual" with
        | some (.vnat n) => n
        | _ => 0) < tarea.maxReintentos.getD configMaxReintentos then
      .error (.nameError "random")
    else
      .ok [("exito", .vbool false), ("error", .vstr (mensajeDe error)),
        ("tipo_error", .vstr (nombreTipo error)),
        ("reintentos", .vnat (match dlookup ctx "reintento_actual" with
          | some (.vnat n) => n
          | _ => 0))]

/-- `ModuloEjecucionTareas.ejecutar_tarea`: the try-body (validate, select
tool, dispatch, post-process) and, on any raised error, `_manejar_error`.
Since the retry branch of `_manejar_error` always raises (missing `random`
import), no recursion ever happens and the embedding needs no fuel; each call
runs the tool at most once. -/
def ejecutarTarea (herramientas : String → Option (Except PyErr Val))
    (configMaxReintentos : Nat) (tarea : Tarea)
    (contexto : Option (List (String × Val))) :
    Except PyErr (List (String × Val)) :=
  let cuerpo : Except PyErr (List (String × Val)) :=
    match validarTarea tarea with
    | .error e => .error e
    | .ok tareaValidada =>
      match seleccionarHerramienta herramientas tareaValidada with
      | .error e => .error e
      | .ok ejecucion =>
        match ejecucion with
        | .error e => .error e
        | .ok resultado =>
          .ok (procesarResultado resultado tareaValidada)
  match cuerpo with
  | .ok r => .ok r
  | .error e => manejarError e tarea contexto configMaxReintentos

/-- A task dict missing every required field. -/
def tareaInvalida : Tarea :=
  ⟨none, none, none, none, none⟩

end ModuloEjecucionTareas

namespace NucleoSAAM

/-- A task as consumed by `NucleoSAAM._fase_ejecucion`
(src/sistema/core.py). -/
structure TareaNucleo where
  id : String
  critica : Bool
  deriving DecidableEq, Repr

/-- A plan: its task list (`plan.get('tareas', [])`). -/
structure PlanNucleo where
  tareas : List TareaNucleo
  deriving DecidableEq, Repr

/-- The dict returned by `procesar_objetivo`. -/
structure Respuesta where
  sessionId : String
  estado : String
  resultados : List (List (String × Val))
  episodioId : String
  timestamp : String
  deriving DecidableEq, Repr

/-- `NucleoSAAM._fase_ejecucion`: run each task through the execution module
(`ejecutor` gives each task's outcome — a result dict, or an exception such
as the NameError of C1), append the result (the working-memory write is an
external facade call), and raise on a critical task whose result is not
truthy-successful. -/
def faseEjecucion
    (ejecutor : TareaNucleo → Except PyErr (List (String × Val))) :
    List TareaNucleo → List (List (String × Val)) →
      Except PyErr (List (List (String × Val)))
  | [], acc => .ok acc
  | tarea :: resto, acc =>
    match ejecutor tarea with
    | .error e => .error e
    | .ok resultado =>
      if !esVerdadero ((dlookup resultado "exito").getD (.vbool false)) &&
          tarea.critica then
        .error (.exception ("Tarea critica fallida: " ++ tarea.id))
      else faseEjecucion ejecutor resto (acc ++ [resultado])

/-- `NucleoSAAM.procesar_objetivo`: planning produced `plan` (external LLM
collaborators), execution runs the tasks, recording stores one episode whose
id is `episodioId` (the missing `_calcular_metricas_episodio` helper only
fills the episode's metrics and is irrelevant to the returned record), and
learning is scheduled asynchronously.  On any exception the except-branch
calls `_registrar_error` (absent from src; per the spec it records an error
episode) and then re-raises, so the caller sees the exception and no state is
returned. -/
def procesarObjetivo
    (ejecutor : TareaNucleo → Except PyErr (List (String × Val)))
    (plan : PlanNucleo) (sessionId episodioId timestamp : String) :
    Except PyErr Respuesta :=
  match faseEjecucion ejecutor plan.tareas [] with
  | .error e => .error e
  | .ok resultados =>
    .ok ⟨sessionId, "completado", resultados, episodioId, timestamp⟩

/-- Number of truthy-successful results. -/
def cuentaExitos (resultados : List (List (String × Val))) : Nat :=
  (resultados.filter (fun r =>
    esVerdadero ((dlookup r "exito").getD (.vbool false)))).length

/-- The overall task success ratio of the claim. -/
def ratioExitos (resultados : List (List (String × Val))) : ℚ :=
  (cuentaExitos resultados : ℚ) / (resultados.length : ℚ)

/-- An execution module whose every task fails non-exceptionally. -/
def ejecutorFallido : TareaNucleo → Except PyErr (List (String × Val)) :=
  fun _ => .ok [("exito", .vbool false), ("error", .vstr "boom")]

/-- A plan with a single non-critical task. -/
def planUnaTarea : PlanNucleo :=
  ⟨[⟨"t1", false⟩]⟩

end NucleoSAAM

namespace ValidadorOptimizadorPlanes

/-- A task as consumed by `ValidadorOptimizadorPlanes`
(src/sistema/mcp_validacion.py): id, dependency ids and optional tool. -/
structure TareaPlan where
  id : String
  dependencias : List String
  herramienta : Option String
  deriving DecidableEq, Repr

/-- A plan: its task list (`plan.get('tareas', [])`). -/
structure PlanDict where
  tareas : List TareaPlan
  deriving DecidableEq, Repr

/-- `_validar_minimo_tareas`. -/
def validarMinimoTareas (p : PlanDict) : Bool × String :=
  if p.tareas.length = 0 then (false, "El plan no contiene tareas")
  else (true, "")

/-- The edges `dep → tarea_id` that `_validar_dependencias_ciclicas` adds to
the networkx digraph (tasks with a falsy id are skipped; `add_edge` also
creates the `dep` node implicitly). -/
def aristas (p : PlanDict) : List (String × String) :=
  p.tareas.flatMap (fun t =>
    if t.id ≠ "" then t.dependencias.map (fun d => (d, t.id)) else [])

/-- The nodes of that digraph. -/
def nodos (p : PlanDict) : List String :=
  p.tareas.flatMap (fun t =>
    if t.id ≠ "" then t.id :: t.dependencias else [])

/-- Successors of a node in the edge list. -/
def sucesores (ar : List (String × String)) (u : String) : List String :=
  (ar.filter (fun e => e.1 = u)).map Prod.snd

/-- Fuel-bounded breadth-first reachability: some walk of length < fuel from
the frontier hits the target. -/
def alcanza (ar : List (String × String)) :
    Nat → List String → String → Bool
  | 0, _, _ => false
  | fuel + 1, frontera, objetivo =>
    frontera.contains objetivo ||
      alcanza ar fuel (frontera.flatMap (sucesores ar)) objetivo

/-- `nx.simple_cycles(grafo)` is non-empty iff the digraph has a directed
cycle: some edge `u → v` with a path from `v` back to `u`.  Fuel one more
than the node count covers every simple path. -/
def hayCiclo (p : PlanDict) : Bool :=
  (aristas p).any (fun e =>
    alcanza (aristas p) ((nodos p).length + 1) [e.2] e.1)

/-- `_validar_dependencias_ciclicas`. -/
def validarDependenciasCiclicas (p : PlanDict) : Bool × String :=
  if hayCiclo p then (false, "Se detectaron ciclos en las dependencias")
  else (true, "")

/-- The hard-coded available-tool set of `_validar_recursos_disponibles`. -/
def herramientasDisponibles : List String :=
  ["busqueda_web", "generacion_texto", "api_rest"]

/-- The tools mentioned by the plan (`if herramienta:` skips falsy ones). -/
def herramientasDelPlan (p : PlanDict) : List String :=
  p.tareas.filterMap (fun t =>
    match t.herramienta with
    | some h => if h ≠ "" then some h else none
    | none => none)

/-- `_validar_recursos_disponibles`: invalid iff some mentioned tool is
outside the available set. -/
def validarRecursosDisponibles (p : PlanDict) : Bool × String :=
  if ((herramientasDelPlan p).filter
      (fun h => !(herramientasDisponibles.contains h))).isEmpty then
    (true, "")
  else (false, "Herramientas no disponibles")

/-- `ValidadorOptimizadorPlanes.validar_plan`: run the three loaded rules in
order, collecting `nombre: mensaje` for each failed one (no rule of this
validator can raise, so the per-rule `except` is dead).  Returns
`(no errors, error list)`. -/
def validarPlan (p : PlanDict) : Bool × List String :=
  let errores :=
    (if (validarMinimoTareas p).1 then [] else
      ["tareas_minimo: " ++ (validarMinimoTareas p).2]) ++
    (if (validarDependenciasCiclicas p).1 then [] else
      ["dependencias_ciclicas: " ++ (validarDependenciasCiclicas p).2]) ++
    (if (validarRecursosDisponibles p).1 then [] else
      ["recursos_disponibles: " ++ (validarRecursosDisponibles p).2])
  (errores.isEmpty, errores)

/-- The key comparison `len(x.get('dependencias', []))` that
`_optimizar_secuencia` sorts by. -/
def rDeps (a b : TareaPlan) : Prop :=
  a.dependencias.length ≤ b.dependencias.length

instance : DecidableRel rDeps :=
  fun a b => Nat.decLe a.dependencias.length b.dependencias.length

instance : IsTotal TareaPlan rDeps :=
  ⟨fun a b => Nat.le_total a.dependencias.length b.dependencias.length⟩

instance : IsTrans TareaPlan rDeps :=
  ⟨fun _ _ _ => Nat.le_trans⟩

/-- `_optimizar_secuencia`: sort the tasks by the number of their declared
dependencies.  Python's `sorted` is a stable ascending sort, whose result is
uniquely determined; `List.insertionSort` with the `≤`-by-key relation
computes exactly that result. -/
def optimizarSecuencia (p : PlanDict) : PlanDict :=
  { p with tareas := List.insertionSort rDeps p.tareas }

/-- `optimizar_plan`: sequence optimization followed by the two identity
optimizations `_optimizar_recursos` and `_optimizar_parametros`. -/
def optimizarPlan (p : PlanDict) : PlanDict :=
  optimizarSecuencia p

/-- The ordering property claimed of the optimized plan: a task only appears
after every task it depends on. -/
def ordenTopologico (ts : List TareaPlan) : Prop :=
  ∀ i j : Fin ts.length, (ts.get i).id ∈ (ts.get j).dependencias → i < j

instance (ts : List TareaPlan) : Decidable (ordenTopologico ts) := by
  unfold ordenTopologico
  infer_instance

/-- A plan whose only task lists a dependency "t0" that is not the id of any
task of the plan. -/
def planColgante : PlanDict :=
  ⟨[⟨"t1", ["t0"], some "busqueda_web"⟩]⟩

/-- An acyclic plan on which sorting by dependency count breaks dependency
order: d depends on c but has fewer dependencies than c. -/
def planDesordenado : PlanDict :=
  ⟨[⟨"a", [], none⟩, ⟨"b", [], none⟩, ⟨"c", ["a", "b"], none⟩,
    ⟨"d", ["c"], none⟩]⟩

end ValidadorOptimizadorPlanes

/-- Scenario tool for C5: fails with a recoverable "timeout" on the first
three calls, then succeeds. -/
def herramientaTimeout3 (intento : Nat) : Except String Val :=
  if intento < 3 then .error "timeout" else .ok (.vstr "ok")

/-- Scenario tool for the rate-limit test: raises "rate limit exceeded" on
the first two calls, then returns a successful result dict. -/
def herramientaRateLimit (intento : Nat) :
    Except String (List (String × Val)) :=
  if intento < 2 then .error "rate limit exceeded"
  else .ok [("exito", .vbool true), ("resultado", .vstr "ok"),
    ("error", Val.vnone)]

lemma dmem_iff {α : Type} (l : List (String × α)) (k : String) :
    dmem l k = true ↔ tiene l k := by
  induction l with
  | nil => simp [dmem, dlookup, tiene, dkeys]
  | cons p r ih =>
    obtain ⟨k2, v⟩ := p
    by_cases h : k2 = k
    · simp [dmem, dlookup, tiene, dkeys, h]
    · simpa [dmem, dlookup, tiene, dkeys, h, Ne.symm h] using ih

lemma dkeys_dset {α : Type} (l : List (String × α)) (k : String) (v : α) :
    dkeys (dset l k v) = if dmem l k then dkeys l else dkeys l ++ [k] := by
  unfold dset
  by_cases h : dmem l k
  · simp only [h, if_true]
    unfold dkeys
    rw [List.map_map]
    refine List.map_congr_left ?_
    intro p _
    by_cases hp : p.1 = k
    · simp [hp, Function.comp]
    · simp [hp, Function.comp]
  · simp [h, dkeys]

lemma tiene_dset {α : Type} (l : List (String × α)) (k k2 : String) (v : α) :
    tiene (dset l k v) k2 ↔ k2 = k ∨ tiene l k2 := by
  unfold tiene
  rw [dkeys_dset]
  by_cases h : dmem l k
  · simp only [h, if_true]
    constructor
    · intro hm
      exact Or.inr hm
    · rintro (rfl | hm)
      · exact (dmem_iff l k2).mp h
      · exact hm
  · simp [h, List.mem_append, or_comm]

lemma tiene_ddel {α : Type} (l : List (String × α)) (k k2 : String) :
    tiene (ddel l k) k2 ↔ tiene l k2 ∧ k2 ≠ k := by
  unfold tiene ddel dkeys
  simp only [List.mem_map, List.mem_filter]
  constructor
  · rintro ⟨p, ⟨hp, hne⟩, rfl⟩
    refine ⟨⟨p, hp, rfl⟩, by simpa using hne⟩
  · rintro ⟨⟨p, hp, rfl⟩, hne⟩
    exact ⟨p, ⟨hp, by simpa using hne⟩, rfl⟩

lemma nodup_dkeys_dset {α : Type} (l : List (String × α)) (k : String) (v : α)
    (h : (dkeys l).Nodup) : (dkeys (dset l k v)).Nodup := by
  rw [dkeys_dset]
  by_cases hm : dmem l k
  · simpa [hm] using h
  · have hk : ¬ tiene l k := fun ht => hm ((dmem_iff l k).mpr ht)
    rw [if_neg hm]
    refine List.Nodup.append h (by simp) ?_
    intro a ha hb
    simp only [List.mem_singleton] at hb
    exact hk (hb ▸ ha)

lemma nodup_dkeys_ddel {α : Type} (l : List (String × α)) (k : String)
    (h : (dkeys l).Nodup) : (dkeys (ddel l k)).Nodup := by
  have hs : List.Sublist (dkeys (ddel l k)) (dkeys l) :=
    List.Sublist.map Prod.fst (List.filter_sublist l)
  exact h.sublist hs

lemma delDict_ok {α : Type} (l : List (String × α)) (k : String)
    (h : tiene l k) : delDict l k = .ok (ddel l k) := by
  unfold delDict
  rw [if_pos ((dmem_iff l k).mpr h)]

lemma dlookup_mem {α : Type} {l : List (String × α)} {k : String} {v : α}
    (h : dlookup l k = some v) : (k, v) ∈ l := by
  induction l with
  | nil => simp [dlookup] at h
  | cons p r ih =>
    obtain ⟨k2, v2⟩ := p
    by_cases hk : k2 = k
    · subst hk
      rw [dlookup, if_pos rfl] at h
      cases h
      exact List.mem_cons_self _ _
    · rw [dlookup, if_neg hk] at h
      exact List.mem_cons_of_mem _ (ih h)

lemma dlookup_map_update {α : Type} (l : List (String × α)) (k : String)
    (v : α) (hm : tiene l k) :
    dlookup (l.map (fun p => if p.1 = k then (k, v) else p)) k = some v := by
  induction l with
  | nil => simp [tiene, dkeys] at hm
  | cons p r ih =>
    obtain ⟨k3, v3⟩ := p
    rw [List.map_cons]
    by_cases hp : k3 = k
    · subst hp
      rw [if_pos rfl]
      simp [dlookup]
    · have hm2 : tiene r k := by
        simp only [tiene, dkeys, List.map_cons, List.mem_cons] at hm
        rcases hm with h1 | h2
        · exact absurd h1.symm hp
        · exact h2
      rw [if_neg hp]
      simp only [dlookup]
      rw [if_neg hp]
      exact ih hm2

lemma dlookup_map_update_ne {α : Type} (l : List (String × α)) (k k2 : String)
    (v : α) (hne : k2 ≠ k) :
    dlookup (l.map (fun p => if p.1 = k then (k, v) else p)) k2 =
      dlookup l k2 := by
  induction l with
  | nil => rfl
  | cons p r ih =>
    obtain ⟨k3, v3⟩ := p
    have hnk : ¬ k = k2 := fun h => hne h.symm
    rw [List.map_cons]
    by_cases hp : k3 = k
    · subst hp
      rw [if_pos rfl]
      simp only [dlookup]
      rw [if_neg hnk, if_neg hnk]
      exact ih
    · rw [if_neg hp]
      simp only [dlookup]
      by_cases hp2 : k3 = k2
      · rw [if_pos hp2, if_pos hp2]
      · rw [if_neg hp2, if_neg hp2]
        exact ih

lemma dlookup_append_single {α : Type} (l : List (String × α)) (k : String)
    (v : α) (hn : dlookup l k = none) :
    dlookup (l ++ [(k, v)]) k = some v := by
  induction l with
  | nil => simp [dlookup]
  | cons p r ih =>
    obtain ⟨k3, v3⟩ := p
    by_cases hp : k3 = k
    · simp [dlookup, hp] at hn
    · rw [dlookup, if_neg hp] at hn
      simpa [dlookup, hp] using ih hn

lemma dlookup_append_single_ne {α : Type} (l : List (String × α))
    (k k2 : String) (v : α) (hne : k2 ≠ k) :
    dlookup (l ++ [(k, v)]) k2 = dlookup l k2 := by
  induction l with
  | nil =>
    have hnk : ¬ k = k2 := fun h => hne h.symm
    simp [dlookup, hnk]
  | cons p r ih =>
    obtain ⟨k3, v3⟩ := p
    by_cases hp : k3 = k2
    · simp [dlookup, hp]
    · simpa [dlookup, hp] using ih

lemma dlookup_dset_self {α : Type} (l : List (String × α)) (k : String)
    (v : α) : dlookup (dset l k v) k = some v := by
  unfold dset
  by_cases hm : dmem l k
  · rw [if_pos hm]
    exact dlookup_map_update l k v ((dmem_iff l k).mp hm)
  · have hn : dlookup l k = none := by
      cases hd : dlookup l k with
      | none => rfl
      | some w => exact absurd (by rw [dmem, hd]; rfl) hm
    rw [if_neg hm]
    exact dlookup_append_single l k v hn

lemma dlookup_dset_ne {α : Type} (l : List (String × α)) (k k2 : String)
    (v : α) (hne : k2 ≠ k) : dlookup (dset l k v) k2 = dlookup l k2 := by
  unfold dset
  by_cases hm : dmem l k
  · rw [if_pos hm]
    exact dlookup_map_update_ne l k k2 v hne
  · rw [if_neg hm]
    exact dlookup_append_single_ne l k k2 v hne

namespace MemoriaTrabajo

lemma invariante_inicial (α : Type) (timeout : Int) :
    invariante (inicial α timeout) :=
  ⟨fun _ => ⟨Iff.rfl, Iff.rfl⟩, List.nodup_nil, List.nodup_nil, List.nodup_nil⟩

lemma invariante_guardar {α : Type} (s : Estado α) (clave : String) (valor : α)
    (ahora : Int) (h : invariante s) : invariante (guardar s clave valor ahora) := by
  obtain ⟨hm, h1, h2, h3⟩ := h
  refine ⟨fun k => ?_, ?_, ?_, ?_⟩
  · constructor
    · rw [guardar, tiene_dset, tiene_dset, (hm k).1]
    · rw [guardar, tiene_dset, tiene_dset, (hm k).2]
  · exact nodup_dkeys_dset _ _ _ h1
  · exact nodup_dkeys_dset _ _ _ h2
  · exact nodup_dkeys_dset _ _ _ h3

lemma invariante_obtener {α : Type} (s : Estado α) (clave : String)
    (ahora : Int) (h : invariante s) : invariante (obtener s clave ahora).2 := by
  obtain ⟨hm, h1, h2, h3⟩ := h
  unfold obtener
  by_cases hc : dmem s.almacen clave
  · simp only [hc, if_true]
    refine ⟨fun k => ?_, h1, nodup_dkeys_dset _ _ _ h2, h3⟩
    constructor
    · rw [tiene_dset]
      constructor
      · intro ha
        exact Or.inr ((hm k).1.mp ha)
      · rintro (rfl | ha)
        · exact (dmem_iff _ _).mp hc
        · exact (hm k).1.mpr ha
    · exact (hm k).2
  · simpa [hc] using ⟨hm, h1, h2, h3⟩

lemma eliminarTres_ok {α : Type} (s : Estado α) (clave : String)
    (h1 : tiene s.almacen clave) (h2 : tiene s.timestampAcceso clave)
    (h3 : tiene s.timestampCreacion clave) :
    eliminarTres s clave = .ok (quitar s clave) := by
  rw [eliminarTres, delDict_ok _ _ h1, delDict_ok _ _ h2, delDict_ok _ _ h3]
  rfl

lemma invariante_quitar {α : Type} (s : Estado α) (clave : String)
    (h : invariante s) : invariante (quitar s clave) := by
  obtain ⟨hm, h1, h2, h3⟩ := h
  refine ⟨fun k => ?_, nodup_dkeys_ddel _ _ h1, nodup_dkeys_ddel _ _ h2,
    nodup_dkeys_ddel _ _ h3⟩
  constructor
  · show tiene (ddel s.almacen clave) k ↔ tiene (ddel s.timestampAcceso clave) k
    rw [tiene_ddel, tiene_ddel]
    exact and_congr_left (fun _ => (hm k).1)
  · show tiene (ddel s.almacen clave) k ↔ tiene (ddel s.timestampCreacion clave) k
    rw [tiene_ddel, tiene_ddel]
    exact and_congr_left (fun _ => (hm k).2)

lemma invariante_eliminar {α : Type} (s : Estado α) (clave : String)
    (h : invariante s) :
    ∃ r, eliminar s clave = .ok r ∧ invariante r.2 := by
  unfold eliminar
  by_cases hc : dmem s.almacen clave
  · have ht : tiene s.almacen clave := (dmem_iff _ _).mp hc
    rw [if_pos hc, eliminarTres_ok s clave ht ((h.1 clave).1.mp ht)
      ((h.1 clave).2.mp ht)]
    exact ⟨_, rfl, invariante_quitar s clave h⟩
  · rw [if_neg hc]
    exact ⟨_, rfl, h⟩

lemma invariante_borrarClaves {α : Type} (claves : List String) (s : Estado α)
    (h : invariante s) (hnd : claves.Nodup)
    (hc : ∀ c ∈ claves, tiene s.timestampAcceso c) :
    ∃ r, borrarClaves claves s = .ok r ∧ invariante r ∧
      ∀ k, tiene r.almacen k ↔ (tiene s.almacen k ∧ k ∉ claves) := by
  induction claves generalizing s with
  | nil =>
    refine ⟨s, rfl, h, fun k => ?_⟩
    simp
  | cons clave resto ih =>
    have hta : tiene s.timestampAcceso clave := hc clave (by simp)
    have htal : tiene s.almacen clave := (h.1 clave).1.mpr hta
    have htc : tiene s.timestampCreacion clave := (h.1 clave).2.mp htal
    rw [borrarClaves, eliminarTres_ok s clave htal hta htc]
    have hinv2 : invariante (quitar s clave) := invariante_quitar s clave h
    have hc2 : ∀ c ∈ resto, tiene (quitar s clave).timestampAcceso c := by
      intro c hcr
      show tiene (ddel s.timestampAcceso clave) c
      rw [tiene_ddel]
      refine ⟨hc c (by simp [hcr]), ?_⟩
      rintro rfl
      exact (List.nodup_cons.mp hnd).1 hcr
    obtain ⟨r, hr, hrinv, hrcar⟩ :=
      ih (quitar s clave) hinv2 (List.nodup_cons.mp hnd).2 hc2
    refine ⟨r, hr, hrinv, fun k => ?_⟩
    rw [hrcar k]
    have hdd : tiene (quitar s clave).almacen k ↔ tiene s.almacen k ∧ k ≠ clave :=
      tiene_ddel s.almacen clave k
    rw [hdd, and_assoc]
    simp only [List.mem_cons, not_or]

lemma invariante_limpiarExpirados {α : Type} (s : Estado α) (ahora : Int)
    (h : invariante s) :
    ∃ r, limpiarExpirados s ahora = .ok r ∧ invariante r ∧
      ∀ k, tiene r.almacen k ↔ (tiene s.almacen k ∧
        k ∉ (s.timestampAcceso.filter
          (fun p => ahora - p.2 > s.timeout)).map Prod.fst) := by
  unfold limpiarExpirados
  have hnd : ((s.timestampAcceso.filter
      (fun p => ahora - p.2 > s.timeout)).map Prod.fst).Nodup :=
    h.2.2.1.sublist (List.Sublist.map Prod.fst (List.filter_sublist _))
  have hc : ∀ c ∈ (s.timestampAcceso.filter
      (fun p => ahora - p.2 > s.timeout)).map Prod.fst,
      tiene s.timestampAcceso c := by
    intro c hcm
    simp only [List.mem_map, List.mem_filter] at hcm
    obtain ⟨p, ⟨hp, _⟩, rfl⟩ := hcm
    exact List.mem_map_of_mem Prod.fst hp
  exact invariante_borrarClaves _ s h hnd hc

lemma invariante_paso {α : Type} (s : Estado α) (op : Op α)
    (h : invariante s) : ∃ s2, paso s op = .ok s2 ∧ invariante s2 := by
  cases op with
  | guardar clave valor ahora =>
    exact ⟨_, rfl, invariante_guardar s clave valor ahora h⟩
  | obtener clave ahora =>
    exact ⟨_, rfl, invariante_obtener s clave ahora h⟩
  | eliminar clave =>
    obtain ⟨r, hr, hrinv⟩ := invariante_eliminar s clave h
    refine ⟨r.2, ?_, hrinv⟩
    rw [paso, hr]
  | limpiarExpirados ahora =>
    obtain ⟨r, hr, hrinv, _⟩ := invariante_limpiarExpirados s ahora h
    exact ⟨r, hr, hrinv⟩
  | limpiarTodo =>
    exact ⟨_, rfl, fun _ => ⟨Iff.rfl, Iff.rfl⟩, List.nodup_nil,
      List.nodup_nil, List.nodup_nil⟩

lemma invariante_correr {α : Type} (ops : List (Op α)) (s : Estado α)
    (h : invariante s) : ∃ r, correr ops s = .ok r ∧ invariante r := by
  induction ops generalizing s with
  | nil => exact ⟨s, rfl, h⟩
  | cons op resto ih =>
    obtain ⟨s2, hs2, hinv2⟩ := invariante_paso s op h
    obtain ⟨r, hr, hrinv⟩ := ih s2 hinv2
    refine ⟨r, ?_, hrinv⟩
    rw [correr, hs2]
    exact hr

end MemoriaTrabajo

/-- C3, counterexample: the claim says a `get` at time `t` with
`t − created > ttl` returns absent.  With `ttl = 10`, a key stored at time 0
and read at time 11 still yields its value, because `obtener` returns any
present value without checking the timeout (expiry happens only in the
background sweep). -/
theorem C3_contraejemplo :
    (MemoriaTrabajo.obtener
      (MemoriaTrabajo.guardar (MemoriaTrabajo.inicial Val 10) "k"
        (.vstr "v") 0) "k" 11).1 = some (.vstr "v") ∧ (11 : Int) - 0 > 10 := by
  constructor
  · rfl
  · decide

/-- C3, amended: expiry is enforced only by the background sweep
`_limpiar_expirados` and is measured from the *last access* timestamp: if the
sweep runs at a time `ahora` with `ahora − lastAccess > timeout`, the entry is
removed and a later `obtener` of the key returns the default (`none`). -/
theorem C3_enmendada {α : Type} (s : MemoriaTrabajo.Estado α) (k : String)
    (ts ahora t2 : Int) (hinv : MemoriaTrabajo.invariante s)
    (hts : dlookup s.timestampAcceso k = some ts)
    (hexp : ahora - ts > s.timeout) :
    ∃ r, MemoriaTrabajo.limpiarExpirados s ahora = .ok r ∧
      (MemoriaTrabajo.obtener r k t2).1 = none := by
  obtain ⟨r, hr, _, hcar⟩ :=
    MemoriaTrabajo.invariante_limpiarExpirados s ahora hinv
  refine ⟨r, hr, ?_⟩
  have hmemf : (k, ts) ∈ s.timestampAcceso.filter
      (fun p => ahora - p.2 > s.timeout) := by
    rw [List.mem_filter]
    exact ⟨dlookup_mem hts, by simpa using hexp⟩
  have hclaves : k ∈ (s.timestampAcceso.filter
      (fun p => ahora - p.2 > s.timeout)).map Prod.fst :=
    List.mem_map_of_mem Prod.fst hmemf
  have hk : ¬ tiene r.almacen k := by
    rw [hcar k]
    rintro ⟨_, hno⟩
    exact hno hclaves
  unfold MemoriaTrabajo.obtener
  rw [if_neg (fun hb => hk ((dmem_iff _ _).mp hb))]

/-- Witness for the amended C3 at a concrete store. -/
theorem C3_enmendada_witness :
    ∃ r, MemoriaTrabajo.limpiarExpirados
        (MemoriaTrabajo.guardar (MemoriaTrabajo.inicial Val 10) "k"
          (.vstr "v") 0) 11 = .ok r ∧
      (MemoriaTrabajo.obtener r "k" 12).1 = none :=
  C3_enmendada _ "k" 0 11 12
    (MemoriaTrabajo.invariante_guardar _ "k" (.vstr "v") 0
      (MemoriaTrabajo.invariante_inicial Val 10))
    rfl (by decide)

namespace GestorMetricas

lemma tasaExito_calcular (config m : List (String × ℚ)) (e : Bool) (d : ℚ) :
    tasaExito (calcularNuevasMetricas config m e d) = nuevaTasa config m e := by
  unfold calcularNuevasMetricas tasaExito
  have hne : ("tasa_exito" : String) ≠ "tiempo_promedio" := by decide
  by_cases hd : 0 < d
  · by_cases ht : (dlookup m "tiempo_promedio").getD 0 = 0
    · rw [if_pos hd, if_pos ht, dlookup_dset_ne _ _ _ _ hne, dlookup_dset_self]
      rfl
    · rw [if_pos hd, if_neg ht, dlookup_dset_ne _ _ _ _ hne, dlookup_dset_self]
      rfl
  · rw [if_neg hd, dlookup_dset_self]
    rfl

lemma tasaExito_iter_acotada (config m0 : List (String × ℚ)) (d : ℚ)
    (ha0 : 0 ≤ alphaDe config) (ha1 : alphaDe config ≤ 1)
    (hp0 : 0 ≤ tasaExito m0) (hp1 : tasaExito m0 ≤ 1) :
    ∀ i, 0 ≤ tasaExito (metricasTrasExitos config m0 d i) ∧
      tasaExito (metricasTrasExitos config m0 d i) ≤ 1 := by
  intro i
  induction i with
  | zero => exact ⟨hp0, hp1⟩
  | succ n ih =>
    rw [metricasTrasExitos, tasaExito_calcular]
    unfold nuevaTasa
    obtain ⟨hb0, hb1⟩ := ih
    unfold tasaExito at hb0 hb1
    constructor
    · rw [if_pos rfl]
      nlinarith
    · rw [if_pos rfl]
      nlinarith

lemma tasaExito_iter_monotona (config m0 : List (String × ℚ)) (d : ℚ)
    (ha0 : 0 ≤ alphaDe config) (ha1 : alphaDe config ≤ 1)
    (hp0 : 0 ≤ tasaExito m0) (hp1 : tasaExito m0 ≤ 1) :
    ∀ i, tasaExito (metricasTrasExitos config m0 d i) ≤
      tasaExito (metricasTrasExitos config m0 d (i + 1)) := by
  intro i
  obtain ⟨hb0, hb1⟩ := tasaExito_iter_acotada config m0 d ha0 ha1 hp0 hp1 i
  rw [metricasTrasExitos, tasaExito_calcular]
  unfold nuevaTasa
  unfold tasaExito at hb0 hb1 ⊢
  rw [if_pos rfl]
  nlinarith

end GestorMetricas

/-- C9: when the configured smoothing factor lies in [0,1] and the stored
success rate lies in [0,1], iterating `_calcular_nuevas_metricas` over `k`
successful executions keeps `tasa_exito` within [0,1] at every step and never
decreases it. -/
theorem C9_ewma_monotona (config m0 : List (String × ℚ)) (d : ℚ) (k : Nat)
    (ha0 : 0 ≤ GestorMetricas.alphaDe config)
    (ha1 : GestorMetricas.alphaDe config ≤ 1)
    (hp0 : 0 ≤ GestorMetricas.tasaExito m0)
    (hp1 : GestorMetricas.tasaExito m0 ≤ 1) :
    (∀ i, i ≤ k →
      0 ≤ GestorMetricas.tasaExito
          (GestorMetricas.metricasTrasExitos config m0 d i) ∧
      GestorMetricas.tasaExito
          (GestorMetricas.metricasTrasExitos config m0 d i) ≤ 1) ∧
    (∀ i, i < k →
      GestorMetricas.tasaExito
          (GestorMetricas.metricasTrasExitos config m0 d i) ≤
        GestorMetricas.tasaExito
          (GestorMetricas.metricasTrasExitos config m0 d (i + 1))) := by
  constructor
  · intro i _
    exact GestorMetricas.tasaExito_iter_acotada config m0 d ha0 ha1 hp0 hp1 i
  · intro i _
    exact GestorMetricas.tasaExito_iter_monotona config m0 d ha0 ha1 hp0 hp1 i

/-- Witness for C9 with α = 0.1, prior success rate 0.5 and k = 2. -/
theorem C9_ewma_monotona_witness :
    GestorMetricas.tasaExito (GestorMetricas.metricasTrasExitos
        [("alpha_metricas", (1:ℚ)/10)] [("tasa_exito", (1:ℚ)/2)] 0 1) ≤
      GestorMetricas.tasaExito (GestorMetricas.metricasTrasExitos
        [("alpha_metricas", (1:ℚ)/10)] [("tasa_exito", (1:ℚ)/2)] 0 2) :=
  (C9_ewma_monotona [("alpha_metricas", (1:ℚ)/10)] [("tasa_exito", (1:ℚ)/2)]
    0 2
    (by rw [show GestorMetricas.alphaDe [("alpha_metricas", (1:ℚ)/10)] =
        1/10 from rfl]; norm_num)
    (by rw [show GestorMetricas.alphaDe [("alpha_metricas", (1:ℚ)/10)] =
        1/10 from rfl]; norm_num)
    (by rw [show GestorMetricas.tasaExito [("tasa_exito", (1:ℚ)/2)] =
        1/2 from rfl]; norm_num)
    (by rw [show GestorMetricas.tasaExito [("tasa_exito", (1:ℚ)/2)] =
        1/2 from rfl]; norm_num)).2 1 (by norm_num)

set_option maxRecDepth 10000 in
/-- The SHA-256 embedding reproduces the standard FIPS 180-4 test vector,
evidence that `SHA256.hexdigest` is the algorithm `hashlib.sha256` computes. -/
theorem sha256_vector_abc :
    SHA256.hexdigest (bytesDe "abc") =
      "ba7816bf8f01cfea414140de5dae2223b00361a396177a9cb410ff61f20015ad" := by
  decide

lemma hexdigest_longitud (m : List Nat) :
    (SHA256.hexdigest m).length = 64 := by
  show (SHA256.hex8 (SHA256.sha256 m).a ++ SHA256.hex8 (SHA256.sha256 m).b ++
    SHA256.hex8 (SHA256.sha256 m).c ++ SHA256.hex8 (SHA256.sha256 m).d ++
    SHA256.hex8 (SHA256.sha256 m).e ++ SHA256.hex8 (SHA256.sha256 m).f ++
    SHA256.hex8 (SHA256.sha256 m).g ++
    SHA256.hex8 (SHA256.sha256 m).h).length = 64
  simp [List.length_append, SHA256.hex8]

lemma calcularChecksum_longitud (o i f v : String) :
    (ValidadorIntegridad.calcularChecksum o i f v).length = 64 :=
  hexdigest_longitud _

/-- C2, counterexample: `guardar_episodio` accepts and stores an episode that
carries no checksum at all: the stored row has checksum `""`, which cannot be
the SHA-256 of its canonical fields (every hex digest has 64 characters).  No
checksum is computed or verified on the append path. -/
theorem C2_contraejemplo :
    ∃ fila, GestorMemoriaEpisodica.guardarEpisodio
        GestorMemoriaEpisodica.episodioSinChecksum
        "episodio_20240101_000010_abcd1234" = .ok fila ∧
      fila.checksumIntegridad = "" ∧
      ValidadorIntegridad.calcularChecksum fila.objetivo
          (fila.timestampInicio.getD "") (fila.timestampFin.getD "")
          fila.versionSistema ≠ fila.checksumIntegridad := by
  refine ⟨_, rfl, rfl, ?_⟩
  intro h
  have h2 := congrArg String.length h
  rw [calcularChecksum_longitud] at h2
  exact absurd h2 (by decide)

/-- C2, amended: `guardar_episodio` stores whatever `checksum_integridad`
the caller supplies, defaulting to the empty string, without computing or
verifying it; checksum logic lives only in `ValidadorIntegridad`, which the
append path never invokes. -/
theorem C2_enmendada (episodio : GestorMemoriaEpisodica.Episodio)
    (idGenerado : String) (fila : GestorMemoriaEpisodica.EpisodioDB)
    (h : GestorMemoriaEpisodica.guardarEpisodio episodio idGenerado =
      .ok fila) :
    fila.checksumIntegridad = episodio.checksumIntegridad.getD "" := by
  unfold GestorMemoriaEpisodica.guardarEpisodio at h
  by_cases hc : (episodio.timestampInicio.isSome ∧
    episodio.timestampFin.isSome)
  · rw [if_pos hc] at h
    cases h
    rfl
  · rw [if_neg hc] at h
    exact Except.noConfusion h

/-- Witness for the amended C2 at the checksum-less episode. -/
theorem C2_enmendada_witness :
    (⟨"episodio_20240101_000010_abcd1234", "objetivo de prueba", "s1",
      "exito", 10, some "2024-01-01 00:00:00", some "2024-01-01 00:00:10",
      "1.0.0", ""⟩ : GestorMemoriaEpisodica.EpisodioDB).checksumIntegridad =
      GestorMemoriaEpisodica.episodioSinChecksum.checksumIntegridad.getD
        "" :=
  C2_enmendada GestorMemoriaEpisodica.episodioSinChecksum
    "episodio_20240101_000010_abcd1234" _ rfl

/-- C1: the engine's error handler itself raises.  At a task missing its
required fields (any raised error reaches `_manejar_error` the same way) with
retries available, the backoff line evaluates `random.uniform` although
src/sistema/met.py never imports `random`, so a `NameError` escapes
`ejecutar_tarea`; and with the default `contexto = None`, the handler's
`contexto.get` raises `AttributeError` — in both cases an exception escapes
instead of a TaskResult with success=false. -/
theorem C1_excepcion_escapa :
    ModuloEjecucionTareas.ejecutarTarea (fun _ => none) 3
        ModuloEjecucionTareas.tareaInvalida (some []) =
      .error (.nameError "random") ∧
    ModuloEjecucionTareas.ejecutarTarea (fun _ => none) 3
        ModuloEjecucionTareas.tareaInvalida none =
      .error (.attributeError "NoneType object has no attribute get") :=
  ⟨rfl, rfl⟩

namespace NucleoSAAM

/-- C4, counterexample: a goal whose single non-critical task fails is
returned with estado "completado" although its success ratio 0 is below the
claimed 0.7 threshold — `procesar_objetivo` computes no ratio and no
failed/partial state. -/
theorem C4_contraejemplo :
    procesarObjetivo ejecutorFallido planUnaTarea "s1" "e1" "t0" =
      .ok ⟨"s1", "completado",
        [[("exito", Val.vbool false), ("error", Val.vstr "boom")]],
        "e1", "t0"⟩ ∧
    ratioExitos [[("exito", Val.vbool false), ("error", Val.vstr "boom")]] =
      0 ∧
    (0 : ℚ) < 7/10 := by
  refine ⟨rfl, ?_, by norm_num⟩
  show ((0 : Nat) : ℚ) / ((1 : Nat) : ℚ) = 0
  norm_num

/-- C4, amended: whenever `procesar_objetivo` returns at all, the returned
estado is the literal "completado", regardless of task outcomes or success
ratios; failures surface only as exceptions (critical-task failure raises and
the except-branch re-raises), never as a returned failed/partial state. -/
theorem C4_enmendada
    (ejecutor : TareaNucleo → Except PyErr (List (String × Val)))
    (plan : PlanNucleo) (sessionId episodioId timestamp : String)
    (r : Respuesta)
    (h : procesarObjetivo ejecutor plan sessionId episodioId timestamp =
      .ok r) :
    r.estado = "completado" := by
  unfold procesarObjetivo at h
  cases hf : faseEjecucion ejecutor plan.tareas [] with
  | error e =>
    rw [hf] at h
    exact Except.noConfusion h
  | ok resultados =>
    rw [hf] at h
    cases h
    rfl

/-- Witness for the amended C4 at the failing-task scenario. -/
theorem C4_enmendada_witness :
    (⟨"s1", "completado",
      [[("exito", Val.vbool false), ("error", Val.vstr "boom")]],
      "e1", "t0"⟩ : Respuesta).estado = "completado" :=
  C4_enmendada ejecutorFallido planUnaTarea "s1" "e1" "t0" _ rfl

end NucleoSAAM

namespace MotorEjecucion

lemma conReintentosAux_exito (herramienta : Nat → Except String Val)
    (maxR : Nat) :
    ∀ (n reintento intento fuel : Nat), reintento + n = maxR →
    n + 1 ≤ fuel →
    (∀ i, i < n → ∃ e, herramienta (intento + i) = .error e ∧
      esErrorRecuperable e = true) →
    ∀ v, herramienta (intento + n) = .ok v →
    conReintentosAux herramienta maxR fuel reintento intento =
      .ok [("exito", .vbool true), ("resultado", v), ("error", Val.vnone)] := by
  intro n
  induction n with
  | zero =>
    intro reintento intento fuel hsum hfuel hf v hv
    cases fuel with
    | zero => exact absurd hfuel (by omega)
    | succ f =>
      have hv2 : herramienta intento = .ok v := by simpa using hv
      simp only [conReintentosAux]
      rw [if_pos (by omega)]
      simp [ejecutarSimple, hv2, dlookup, esVerdadero]
  | succ n ih =>
    intro reintento intento fuel hsum hfuel hf v hv
    cases fuel with
    | zero => exact absurd hfuel (by omega)
    | succ f =>
      obtain ⟨e, he, herec⟩ := hf 0 (Nat.succ_pos n)
      have he2 : herramienta intento = .error e := by simpa using he
      simp only [conReintentosAux]
      rw [if_pos (by omega)]
      rw [if_neg (by simp [ejecutarSimple, he2, dlookup, esVerdadero])]
      rw [if_pos (by simp [ejecutarSimple, he2, dlookup, valAStr, herec])]
      refine ih (reintento + 1) (intento + 1) f (by omega) (by omega)
        (fun i hi => ?_) v ?_
      · obtain ⟨e2, he3, hr3⟩ := hf (i + 1) (by omega)
        have hidx : intento + (i + 1) = intento + 1 + i := by omega
        exact ⟨e2, hidx ▸ he3, hr3⟩
      · have hidx : intento + (n + 1) = intento + 1 + n := by omega
        exact hidx ▸ hv

end MotorEjecucion

/-- C5, counterexample: with `max_reintentos = 3` and a tool that fails
recoverably exactly three times and then succeeds, the retry loop returns the
successful result dict — but that dict has no retries field at all (its keys
are exito/resultado/error), so the claimed "retries count equal to
max_retries" is absent from the returned TaskResult. -/
theorem C5_contraejemplo :
    MotorEjecucion.ejecutarConReintentosMotor herramientaTimeout3 3 =
      .ok [("exito", .vbool true), ("resultado", .vstr "ok"),
        ("error", Val.vnone)] ∧
    dlookup [("exito", Val.vbool true), ("resultado", Val.vstr "ok"),
        ("error", Val.vnone)] "reintentos" = none ∧
    dlookup [("exito", Val.vbool true), ("resultado", Val.vstr "ok"),
        ("error", Val.vnone)] "reintentos" ≠ some (Val.vnat 3) :=
  ⟨rfl, rfl, fun h => Option.noConfusion h⟩

/-- C5, amended: after exactly `max_reintentos` recoverable failures followed
by a success, `_ejecutar_con_reintentos` does return the success (it does not
give up before allowing `max_reintentos` retries), but the returned result
dict carries no retry count. -/
theorem C5_enmendada (herramienta : Nat → Except String Val) (maxR : Nat)
    (v : Val)
    (hfallos : ∀ i, i < maxR → ∃ e, herramienta i = .error e ∧
      MotorEjecucion.esErrorRecuperable e = true)
    (hexito : herramienta maxR = .ok v) :
    MotorEjecucion.ejecutarConReintentosMotor herramienta maxR =
      .ok [("exito", .vbool true), ("resultado", v), ("error", Val.vnone)] ∧
    dlookup [("exito", Val.vbool true), ("resultado", v),
      ("error", Val.vnone)] "reintentos" = none := by
  constructor
  · exact MotorEjecucion.conReintentosAux_exito herramienta maxR maxR 0 0
      (maxR + 2) (by omega) (by omega)
      (fun i hi => by simpa using hfallos i hi) v (by simpa using hexito)
  · rfl

/-- Witness for the amended C5 at `max_reintentos = 3` with three recoverable
timeouts before success. -/
theorem C5_enmendada_witness :
    MotorEjecucion.ejecutarConReintentosMotor herramientaTimeout3 3 =
      .ok [("exito", .vbool true), ("resultado", .vstr "ok"),
        ("error", Val.vnone)] ∧
    dlookup [("exito", Val.vbool true), ("resultado", Val.vstr "ok"),
      ("error", Val.vnone)] "reintentos" = none :=
  C5_enmendada herramientaTimeout3 3 (.vstr "ok")
    (fun i hi => ⟨"timeout", by simp [herramientaTimeout3, hi], rfl⟩) rfl

namespace ValidadorOptimizadorPlanes

/-- C6, counterexample: a plan whose task depends on the nonexistent id "t0"
passes `validar_plan` (the dangling dependency only becomes an extra graph
node and creates no cycle; no rule checks that dependencies reference tasks
of the plan). -/
theorem C6_contraejemplo :
    validarPlan planColgante = (true, []) ∧
    (∃ t ∈ planColgante.tareas, "t0" ∈ t.dependencias) ∧
    "t0" ∉ planColgante.tareas.map TareaPlan.id := by
  refine ⟨rfl, by decide, by decide⟩

lemma filter_no_disponibles_nil (p : PlanDict)
    (hherr : ∀ h ∈ herramientasDelPlan p,
      herramientasDisponibles.contains h = true) :
    (herramientasDelPlan p).filter
      (fun h => !(herramientasDisponibles.contains h)) = [] := by
  rw [List.filter_eq_nil_iff]
  intro h hm
  rw [hherr h hm]
  simp

/-- C6, amended: the validator enforces only the three loaded rules (at least
one task, acyclic dependency edges, tools drawn from the available set); a
dependency id that matches no task of the plan does not make the plan
invalid. -/
theorem C6_enmendada (p : PlanDict)
    (htareas : p.tareas.length ≠ 0)
    (hciclo : hayCiclo p = false)
    (hherr : ∀ h ∈ herramientasDelPlan p,
      herramientasDisponibles.contains h = true)
    (hcolgante : ∃ t ∈ p.tareas, ∃ d ∈ t.dependencias,
      d ∉ p.tareas.map TareaPlan.id) :
    validarPlan p = (true, []) := by
  have h1 : (validarMinimoTareas p).1 = true := by
    unfold validarMinimoTareas
    rw [if_neg htareas]
  have h2 : (validarDependenciasCiclicas p).1 = true := by
    unfold validarDependenciasCiclicas
    simp [hciclo]
  have h3 : (validarRecursosDisponibles p).1 = true := by
    unfold validarRecursosDisponibles
    rw [filter_no_disponibles_nil p hherr]
    rfl
  unfold validarPlan
  rw [if_pos h1, if_pos h2, if_pos h3]
  rfl

/-- Witness for the amended C6 at the dangling-dependency plan. -/
theorem C6_enmendada_witness : validarPlan planColgante = (true, []) :=
  C6_enmendada planColgante (by decide) rfl (by decide) (by decide)

/-- C7, counterexample: on an acyclic plan, `_optimizar_secuencia` (sort by
dependency count) places task d before its dependency c, so the optimized
sequence is not in dependency order. -/
theorem C7_contraejemplo :
    hayCiclo planDesordenado = false ∧
    (optimizarSecuencia planDesordenado).tareas =
      [⟨"a", [], none⟩, ⟨"b", [], none⟩, ⟨"d", ["c"], none⟩,
        ⟨"c", ["a", "b"], none⟩] ∧
    ¬ ordenTopologico (optimizarSecuencia planDesordenado).tareas := by
  refine ⟨rfl, rfl, by decide⟩

/-- C7, amended: `_optimizar_secuencia` stably sorts the tasks into
non-decreasing dependency-count order (a permutation of the input); it is not
a topological sort, so a task may precede a task it depends on. -/
theorem C7_enmendada (p : PlanDict) :
    List.Perm (optimizarSecuencia p).tareas p.tareas ∧
    List.Sorted rDeps (optimizarSecuencia p).tareas :=
  ⟨List.perm_insertionSort rDeps p.tareas,
    List.sorted_insertionSort rDeps p.tareas⟩

end ValidadorOptimizadorPlanes

/-- C8: "rate limit exceeded" classifies as recoverable rate-limiting with
exponential-backoff strategy (delay 1, base 2, up to 7 retries); running the
retry mechanism under that strategy on a tool that raises it twice and then
succeeds performs exactly two backoff sleeps of 2 s and 4 s (the recorded
delay trace, hence retries = 2) and returns the successful result. -/
theorem C8_rate_limit_reintentos :
    GestorErrores.clasificarError "Exception" "rate limit exceeded" =
      ⟨"rate_limiting", "recursos", true,
        "reintentar_con_backoff_exponencial", 8/10⟩ ∧
    GestorErrores.obtenerEstrategiaReintento
        (GestorErrores.clasificarError "Exception" "rate limit exceeded") =
      ⟨1, 7, "exponencial", some 2, none⟩ ∧
    MecanismoReintentos.ejecutarConReintentos herramientaRateLimit
        (GestorErrores.obtenerEstrategiaReintento
          (GestorErrores.clasificarError "Exception"
            "rate limit exceeded")) =
      (.ok [("exito", .vbool true), ("resultado", .vstr "ok"),
        ("error", Val.vnone)], [2, 4]) :=
  ⟨rfl, rfl, rfl⟩

/-- C10: starting from an empty working store, after any sequence of put,
get, delete, sweep and clear-all operations every operation succeeds (no
`KeyError`) and a key is bound in the value store iff it is bound in both
timestamp dicts. -/
theorem C10_claves_sincronizadas {α : Type} (timeout : Int)
    (ops : List (MemoriaTrabajo.Op α)) :
    ∃ s, MemoriaTrabajo.correr ops (MemoriaTrabajo.inicial α timeout) =
        .ok s ∧
      ∀ k, tiene s.almacen k ↔
        (tiene s.timestampAcceso k ∧ tiene s.timestampCreacion k) := by
  obtain ⟨r, hr, hrinv⟩ := MemoriaTrabajo.invariante_correr ops _
    (MemoriaTrabajo.invariante_inicial α timeout)
  refine ⟨r, hr, fun k => ?_⟩
  constructor
  · intro h2
    exact ⟨(hrinv.1 k).1.mp h2, (hrinv.1 k).2.mp h2⟩
  · rintro ⟨h2, _⟩
    exact (hrinv.1 k).1.mpr h2

end SAAM
